import Mathlib

/-!
Shallow embedding of the AutoGuardVPN_CN server-list generator
(`update_servers.py` and `gen_servers.py`) together with theorems checking
the natural-language specification against it.

Modelling conventions:
* Python strings are Lean `String`s; all character-class tests (`str.strip`,
  the `\s`, `\S`, `\d` classes of `re`) are modelled over ASCII, which covers
  every input the feed format and the claims use.
* Python exceptions are modelled with `Option`: a `try` block whose body can
  raise becomes a chain of `Option` binds, and the enclosing `except` handler
  is the `none` branch.
* `socket`-level connectivity (`test_server_connectivity`) is modelled as an
  oracle parameter `conn : String → Nat → Bool` giving, for an address and a
  port, whether a TCP connect within the timeout succeeds.
* Python's per-process `hash` on strings is modelled as an oracle parameter
  `hash : String → Int`; `datetime.now()` as a `String` parameter.
-/

/-- ASCII model of the Python whitespace class used by `str.strip`, `str.split`
and the regex class `\s`. -/
def isPySpace (c : Char) : Bool :=
  c = ' ' || c = '\t' || c = '\n' || c = '\r' || c = '\x0b' || c = '\x0c'

/-- `\S` (non-whitespace), the complement of `isPySpace`. -/
def isPyNonSpace (c : Char) : Bool := !(isPySpace c)

/-- The ASCII decimal-digit class `\d`. -/
def isPyDigit (c : Char) : Bool := '0' ≤ c && c ≤ '9'

/-- Value of a run of decimal digits, most significant first. -/
def digitsToNat (l : List Char) : Nat :=
  l.foldl (fun n c => 10 * n + (c.toNat - '0'.toNat)) 0

/-- `str.strip()` on the character list: drop whitespace at both ends. -/
def pyStripL (l : List Char) : List Char :=
  ((l.dropWhile isPySpace).reverse.dropWhile isPySpace).reverse

/-- Python `line.strip()`. -/
def pyStrip (s : String) : String := ⟨pyStripL s.data⟩

/-- Python `s.startswith(pre)`. -/
def pyStartsWith (pre s : String) : Bool := pre.data.isPrefixOf s.data

/-- Python `sub in s` (substring containment). -/
def pyContainsL (pat : List Char) : List Char → Bool
  | [] => pat.isPrefixOf []
  | c :: cs => pat.isPrefixOf (c :: cs) || pyContainsL pat cs

/-- Python `sub in s` on strings. -/
def pyContains (pat s : String) : Bool := pyContainsL pat.data s.data

/-- Python `s.split(sep)` for a one-character separator, on character lists:
splitting the empty string yields one empty chunk, like Python. -/
def pySplitL (sep : Char) : List Char → List (List Char)
  | [] => [[]]
  | c :: cs =>
    let r := pySplitL sep cs
    if c = sep then [] :: r
    else
      match r with
      | [] => [[c]]
      | h :: t => (c :: h) :: t

/-- Python `line.split(',')`. -/
def pySplit (s : String) : List String := (pySplitL ',' s.data).map String.mk

/-- Python `int(s)` for base-10 string input: optional surrounding whitespace,
an optional sign, then at least one digit; `none` models `ValueError`.
(Underscore digit separators, accepted by CPython, are not modelled; no claim
touches them.) -/
def pyInt (s : String) : Option Int :=
  let t := pyStripL s.data
  let signed : Int × List Char :=
    match t with
    | '+' :: r => (1, r)
    | '-' :: r => (-1, r)
    | r => (1, r)
  if signed.2 ≠ [] && signed.2.all isPyDigit then
    some (signed.1 * (digitsToNat signed.2 : Int))
  else
    none

/-- A parsed VPN Gate CSV row, as built by `parse_vpngate_csv`
(`update_servers.py`, lines 76–86). -/
structure Server where
  hostname : String
  ip : String
  score : Int
  ping : Int
  speed : Int
  country_long : String
  country_short : String
  vpn_sessions : Int
  config_base64 : String
deriving DecidableEq, Repr

/-- `int(parts[i]) if parts[i] else 0`: the value a numeric CSV field gets
when its parse succeeds (empty field means 0). -/
def numField (f : String) : Int := if f = "" then 0 else (pyInt f).getD 0

/-- The loop body of `parse_vpngate_csv` (`update_servers.py`, lines 53–88)
for one data line: skip `*`-prefixed and blank lines, skip rows with fewer
than 15 comma-separated fields, then run the `try` block — each numeric field
is `int(...)` if non-empty (a `ValueError` skips the whole row) and `0` if
empty — and finally skip rows whose field 14 (the OpenVPN blob) is empty. -/
def parseDataLine (line : String) : Option Server :=
  if pyStartsWith "*" line then none
  else if pyStrip line = "" then none
  else if (pySplit line).length < 15 then none
  else
    (if (pySplit line).getD 2 "" = "" then some 0
      else pyInt ((pySplit line).getD 2 "")).bind fun score =>
    (if (pySplit line).getD 3 "" = "" then some 0
      else pyInt ((pySplit line).getD 3 "")).bind fun ping =>
    (if (pySplit line).getD 4 "" = "" then some 0
      else pyInt ((pySplit line).getD 4 "")).bind fun speed =>
    (if (pySplit line).getD 7 "" = "" then some 0
      else pyInt ((pySplit line).getD 7 "")).bind fun vpn_sessions =>
    if (if (pySplit line).length > 14 then (pySplit line).getD 14 "" else "") = ""
    then none
    else
      some { hostname := (pySplit line).getD 0 "",
             ip := (pySplit line).getD 1 "",
             score := score, ping := ping, speed := speed,
             country_long := (pySplit line).getD 5 "",
             country_short := (pySplit line).getD 6 "",
             vpn_sessions := vpn_sessions,
             config_base64 :=
               if (pySplit line).length > 14 then (pySplit line).getD 14 "" else "" }

/-- `parse_vpngate_csv` (`update_servers.py`, lines 36–91): strip the text,
split into lines, find the header line, and parse every following data line,
skipping the ones the loop body rejects. -/
def parse_vpngate_csv (csv_data : String) : List Server :=
  let lines := (pySplitL '\n' (pyStrip csv_data).data).map String.mk
  match lines.findIdx? (fun l => pyStartsWith "#HostName" l || pyStartsWith "*HostName" l) with
  | none => []
  | some header_idx => (lines.drop (header_idx + 1)).filterMap parseDataLine

/-! ## Base64 (model of `base64.b64decode` / the feed's encoder) -/

/-- Value of a character of the standard base64 alphabet. -/
def b64Val (c : Char) : Option Nat :=
  if 'A' ≤ c && c ≤ 'Z' then some (c.toNat - 'A'.toNat)
  else if 'a' ≤ c && c ≤ 'z' then some (c.toNat - 'a'.toNat + 26)
  else if '0' ≤ c && c ≤ '9' then some (c.toNat - '0'.toNat + 52)
  else if c = '+' then some 62
  else if c = '/' then some 63
  else none

/-- Character of the standard base64 alphabet for a 6-bit value. -/
def b64Char (n : Nat) : Char :=
  if n < 26 then Char.ofNat ('A'.toNat + n)
  else if n < 52 then Char.ofNat ('a'.toNat + (n - 26))
  else if n < 62 then Char.ofNat ('0'.toNat + (n - 52))
  else if n = 62 then '+'
  else '/'

/-- Like CPython's `binascii`, characters outside the alphabet (and other than
the `=` pad) are discarded before decoding. -/
def b64Filter (l : List Char) : List Char :=
  l.filter (fun c => (b64Val c).isSome || c = '=')

/-- Decode a filtered base64 character list into bytes, four characters at a
time; `none` models the `binascii.Error` raised when the (filtered) length is
not a multiple of four or padding appears anywhere but the end. -/
def b64Groups : List Char → Option (List Nat)
  | [] => some []
  | c1 :: c2 :: c3 :: c4 :: rest => do
    let v1 ← b64Val c1
    let v2 ← b64Val c2
    if c3 = '=' then
      if c4 = '=' && rest = [] then some [v1 * 4 + v2 / 16] else none
    else do
      let v3 ← b64Val c3
      if c4 = '=' then
        if rest = [] then some [v1 * 4 + v2 / 16, (v2 % 16) * 16 + v3 / 4] else none
      else do
        let v4 ← b64Val c4
        let tail ← b64Groups rest
        some ([v1 * 4 + v2 / 16, (v2 % 16) * 16 + v3 / 4, (v3 % 4) * 64 + v4] ++ tail)
  | _ => none

/-- Model of `base64.b64decode(blob).decode('utf-8', errors='ignore')`:
decode the base64 text to bytes, then view the bytes as text. The claims only
exercise ASCII payloads, so the byte-to-text step keeps bytes below 128 and
drops the rest (CPython would decode valid multi-byte UTF-8 sequences; none
occur in the inputs the claims quantify over). -/
def b64decode (s : String) : Option String :=
  (b64Groups (b64Filter s.data)).map
    (fun bytes => ⟨(bytes.filter (fun b => b < 128)).map Char.ofNat⟩)

/-- Standard base64 encoding of a byte list (the encoder the feed applies to
configuration payloads; used to state the round-trip claim). -/
def b64EncodeBytes : List Nat → List Char
  | [] => []
  | [b1] => [b64Char (b1 / 4), b64Char ((b1 % 4) * 16), '=', '=']
  | [b1, b2] => [b64Char (b1 / 4), b64Char ((b1 % 4) * 16 + b2 / 16), b64Char ((b2 % 16) * 4), '=']
  | b1 :: b2 :: b3 :: rest =>
    b64Char (b1 / 4) :: b64Char ((b1 % 4) * 16 + b2 / 16) ::
      b64Char ((b2 % 16) * 4 + b3 / 64) :: b64Char (b3 % 64) :: b64EncodeBytes rest

/-- Standard base64 encoding of an ASCII string. -/
def base64Encode (s : String) : String := ⟨b64EncodeBytes (s.data.map Char.toNat)⟩

/-! ## The two regular expressions of `parse_openvpn_config` -/

/-- Match `remote\s+(\S+)\s+(\d+)` anchored at the head of the list: the
literal `remote`, one or more whitespace characters, a maximal non-empty run
of non-whitespace (group 1, the host), whitespace, then a maximal non-empty
digit run (group 2, the port). Greedy runs with no fruitful backtracking make
the regex equivalent to this maximal-run scan. -/
def matchRemoteAt (l : List Char) : Option (String × Nat) :=
  if "remote".data.isPrefixOf l then
    let r0 := l.drop 6
    if r0.takeWhile isPySpace = [] then none
    else
      let r1 := r0.dropWhile isPySpace
      let host := r1.takeWhile isPyNonSpace
      if host = [] then none
      else
        let r2 := r1.dropWhile isPyNonSpace
        if r2.takeWhile isPySpace = [] then none
        else
          let r3 := r2.dropWhile isPySpace
          let ds := r3.takeWhile isPyDigit
          if ds = [] then none
          else some (⟨host⟩, digitsToNat ds)
  else none

/-- `re.search(r'remote\s+(\S+)\s+(\d+)', config)`: try the anchored match at
every position, left to right. -/
def findRemoteL : List Char → Option (String × Nat)
  | [] => none
  | c :: cs =>
    match matchRemoteAt (c :: cs) with
    | some r => some r
    | none => findRemoteL cs

/-- Search for the connection directive in the decoded configuration text. -/
def findRemote (s : String) : Option (String × Nat) := findRemoteL s.data

/-- Match `proto\s+(tcp|udp)` anchored at the head of the list. -/
def matchProtoAt (l : List Char) : Option String :=
  if "proto".data.isPrefixOf l then
    let r0 := l.drop 5
    if r0.takeWhile isPySpace = [] then none
    else
      let r1 := r0.dropWhile isPySpace
      if "tcp".data.isPrefixOf r1 then some "tcp"
      else if "udp".data.isPrefixOf r1 then some "udp"
      else none
  else none

/-- `re.search(r'proto\s+(tcp|udp)', config)`. -/
def findProtoL : List Char → Option String
  | [] => none
  | c :: cs =>
    match matchProtoAt (c :: cs) with
    | some r => some r
    | none => findProtoL cs

/-- Search for the transport hint in the decoded configuration text. -/
def findProto (s : String) : Option String := findProtoL s.data

/-- `parse_openvpn_config` (`update_servers.py`, lines 93–112): base64-decode
the blob (a decode error is caught and yields `(None, None, None)`), look for
the `remote host port` directive (absent likewise yields `(None, None, None)`),
then the `proto` hint, defaulting to `udp`. -/
def parse_openvpn_config (config_base64 : String) :
    Option String × Option Nat × Option String :=
  match b64decode config_base64 with
  | none => (none, none, none)
  | some config =>
    match findRemote config with
    | none => (none, none, none)
    | some (host, port) =>
      let proto := (findProto config).getD "udp"
      (some host, some port, some proto)

/-! ## Reachability probing (`test_server_connectivity` is the `conn` oracle) -/

/-- The primary port of a candidate (`test_server`, lines 130–133): the port
extracted from the decoded configuration; `if not port: port = 443` makes both
a missing directive (`None`) and a literal port `0` default to 443. -/
def primary_port (server : Server) : Nat :=
  match (parse_openvpn_config server.config_base64).2.1 with
  | some p => if p = 0 then 443 else p
  | none => 443

/-- `test_server` (`update_servers.py`, lines 125–144): try the primary port;
on failure walk the fixed fallback list `[443, 1194, 992, 995]`, skipping the
port already tried, and stop at the first success; otherwise report the
candidate unreachable at the primary port. -/
def test_server (conn : String → Nat → Bool) (server : Server) :
    Server × Nat × Bool :=
  let port := primary_port server
  if conn server.ip port then (server, port, true)
  else
    match [443, 1194, 992, 995].find? (fun ap => ap != port && conn server.ip ap) with
    | some ap => (server, ap, true)
    | none => (server, port, false)

/-! ## Stable descending sort

Python's `list.sort(key=..., reverse=True)` is Timsort: stable, and with
`reverse=True` every comparison is reversed, so ties keep their original
order. Any stable descending-by-key sort computes the same list; the
embedding uses a structurally recursive insertion sort with exactly that
stability (an element is inserted before the first element whose key is
less than or equal to its own). -/

/-- Insert `x` before the first element whose key is ≤ `key x`. -/
def insertByDesc (key : α → Int) (x : α) : List α → List α
  | [] => [x]
  | y :: ys => if key y ≤ key x then x :: y :: ys else y :: insertByDesc key x ys

/-- Stable descending sort by an integer key, the model of
`list.sort(key=..., reverse=True)`. -/
def sortByDesc (key : α → Int) (l : List α) : List α :=
  l.foldr (insertByDesc key) []

/-- The country allow-list of `update_servers.py` (line 19). -/
def GOOGLE_ACCESSIBLE_COUNTRIES : List String :=
  ["JP", "US", "KR", "TW", "SG", "HK", "DE", "GB", "FR", "NL", "AU", "CA",
   "SE", "CH", "NO", "FI", "DK", "BE", "AT", "IT", "ES", "PT", "IE", "NZ",
   "PL", "CZ", "RO", "HU", "TH", "MY", "PH", "VN", "IN", "ID"]

/-- The filter-and-rank stage of `update_servers.main` (lines 179–186): keep
the servers whose country code is in the allow-list with score ≥ 100000, then
stable-sort by score, highest first. -/
def filterAndRank (servers : List Server) : List Server :=
  sortByDesc Server.score
    (servers.filter
      (fun s => GOOGLE_ACCESSIBLE_COUNTRIES.contains s.country_short &&
        decide (100000 ≤ s.score)))

/-- One probe outcome per candidate (`update_servers.main`, lines 195–204);
the thread pool collects outcomes in completion order, which the embedding
fixes to input order — every property stated below is order-insensitive. -/
def probe_all (conn : String → Nat → Bool) (candidates : List Server) :
    List (Server × Nat × Bool) :=
  candidates.map (test_server conn)

/-- The `working_servers` list: the `(server, port)` pairs of the outcomes
whose probe succeeded. -/
def working_servers (conn : String → Nat → Bool) (candidates : List Server) :
    List (Server × Nat) :=
  (probe_all conn candidates).filterMap
    (fun r => if r.2.2 then some (r.1, r.2.1) else none)

/-- `final_servers` (lines 212–216): re-sort the working servers by score,
highest first, and keep the top 20. -/
def final_servers (conn : String → Nat → Bool) (candidates : List Server) :
    List (Server × Nat) :=
  (sortByDesc (fun pr => pr.1.score) (working_servers conn candidates)).take 20

/-! ## Output records -/

/-- A JSON scalar of the output document. -/
inductive JVal where
  | s : String → JVal
  | i : Int → JVal
  | q : Rat → JVal
deriving DecidableEq, Repr

/-- Round-half-even to an integer, the tie behavior of Python `round`. -/
def pyRoundHalfEven (x : Rat) : Int :=
  let n := Rat.floor x
  let f := x - (n : Rat)
  if f < 1 / 2 then n
  else if 1 / 2 < f then n + 1
  else if n % 2 = 0 then n else n + 1

/-- Python `round(x, 2)` on the exact value of `x`. For the throughput
computation `speed / 1024 / 1024` this is exact float arithmetic whenever
`|speed| < 2 ^ 53` (integers below 2^53 are exact doubles and division by a
power of two only shifts the exponent), so the rational model agrees with the
float the source computes on that domain. -/
def pyRound2 (x : Rat) : Rat := ((pyRoundHalfEven (x * 100) : Int) : Rat) / 100

/-- `convert_to_vpnserver` (`update_servers.py`, lines 146–163), as the
key-value list of the emitted JSON object (Python dicts preserve insertion
order). The `config` decode is not wrapped in any `try` in the source, so a
decode failure there would abort the run; the embedding uses `""` for that
never-serialized case, and theorems that depend on `config` carry a
decodability hypothesis. -/
def convert_to_vpnserver (hash : String → Int) (server : Server) (port : Nat) :
    List (String × JVal) :=
  [("id", JVal.s (toString ((hash server.ip).natAbs))),
   ("name", JVal.s server.hostname),
   ("country", JVal.s server.country_short),
   ("city", JVal.s server.country_long),
   ("endpoint", JVal.s server.ip),
   ("port", JVal.i (port : Int)),
   ("protocol", JVal.s "OpenVPN"),
   ("config", JVal.s ((b64decode server.config_base64).getD "")),
   ("username", JVal.s "vpn"),
   ("password", JVal.s "vpn"),
   ("psk", JVal.s "vpn"),
   ("pingLatency", JVal.i server.ping),
   ("vpnSessions", JVal.i server.vpn_sessions),
   ("throughput", JVal.q (pyRound2 ((server.speed : Rat) / 1024 / 1024)))]

/-- `update_servers.main` (lines 165–233): the output document — the servers
array, the schema version, and the timestamp — or `none` when the run stops
before writing (empty download, no parsed servers, no working servers).
The thread pool collects probe results with `as_completed`, whose yield order
is scheduling-dependent; since each future carries its own candidate, any
collection order is the probe of some reordering of the candidate sequence,
modelled by the `sched` parameter: a real run corresponds to some `sched`
whose output is a permutation of its input (both `id` and `List.reverse` are
such schedulers). -/
def update_main (hash : String → Int) (conn : String → Nat → Bool)
    (sched : List Server → List Server) (now : String) (csv_data : String) :
    Option (List (List (String × JVal)) × String × String) :=
  if csv_data = "" then none
  else if (parse_vpngate_csv csv_data).isEmpty then none
  else if (working_servers conn
      (sched ((filterAndRank (parse_vpngate_csv csv_data)).take 50))).isEmpty then none
  else
    some ((final_servers conn
        (sched ((filterAndRank (parse_vpngate_csv csv_data)).take 50))).map
      (fun pr => convert_to_vpnserver hash pr.1 pr.2), "2.0", now)

/-! ## `gen_servers.py` -/

/-- The (shorter) country allow-list of `gen_servers.py` (line 9). -/
def GOOGLE_COUNTRIES : List String :=
  ["JP", "US", "KR", "TW", "SG", "HK", "DE", "GB", "FR", "NL", "AU", "CA"]

/-- The config-decoding block of `gen_servers.main` (lines 53–60): decode the
blob and extract the port from the `remote` directive (443 when the directive
is absent); only when decoding itself raises do both defaults apply — port 443
and the empty configuration text. -/
def gen_config_port (config_base64 : String) : Nat × String :=
  match b64decode config_base64 with
  | none => (443, "")
  | some config =>
    match findRemote config with
    | some hp => (hp.2, config)
    | none => (443, config)

/-- A row dictionary of `gen_servers.main` (lines 62–78) minus its two
hash-dependent/transient members: the source stores `id` (derived from the
per-process `hash` of the ip) at construction and deletes `score` before
serializing; since `id` is never read in between, the embedding keeps the raw
fields here and attaches `id` at emission (`genFinalize`). -/
structure GenRecord where
  name : String
  country : String
  city : String
  endpoint : String
  port : Nat
  protocol : String
  config : String
  username : String
  password : String
  psk : String
  pingLatency : Int
  vpnSessions : Int
  throughput : Rat
  score : Int
deriving DecidableEq, Repr

/-- The loop body of `gen_servers.main` (lines 28–80) for one input line:
the same skip rules and numeric-field handling as `parse_vpngate_csv`, then
the country filter, the config/score filter, and the record construction. -/
def gen_parse_line (line : String) : Option GenRecord :=
  if pyStartsWith "*" line then none
  else if pyStrip line = "" then none
  else if (pySplit line).length < 15 then none
  else
    (if (pySplit line).getD 2 "" = "" then some 0
      else pyInt ((pySplit line).getD 2 "")).bind fun score =>
    (if (pySplit line).getD 3 "" = "" then some 0
      else pyInt ((pySplit line).getD 3 "")).bind fun ping =>
    (if (pySplit line).getD 4 "" = "" then some 0
      else pyInt ((pySplit line).getD 4 "")).bind fun speed =>
    (if (pySplit line).getD 7 "" = "" then some 0
      else pyInt ((pySplit line).getD 7 "")).bind fun vpn_sessions =>
    if !(GOOGLE_COUNTRIES.contains ((pySplit line).getD 6 "")) then none
    else if (if (pySplit line).length > 14 then (pySplit line).getD 14 "" else "") = ""
        || decide (score < 100000) then none
    else
      let pc := gen_config_port
        (if (pySplit line).length > 14 then (pySplit line).getD 14 "" else "")
      some { name := (pySplit line).getD 0 "",
             country := (pySplit line).getD 6 "",
             city := (pySplit line).getD 5 "",
             endpoint := (pySplit line).getD 1 "",
             port := pc.1, protocol := "OpenVPN", config := pc.2,
             username := "vpn", password := "vpn", psk := "vpn",
             pingLatency := ping, vpnSessions := vpn_sessions,
             throughput := pyRound2 ((speed : Rat) / 1024 / 1024),
             score := score }

/-- Emission of one final record (`gen_servers.main`, lines 63 and 85–89):
the key-value list of the serialized JSON object — `id` derived from the
`hash` of the endpoint ip, and no `score` member (`del s['score']`). -/
def genFinalize (hash : String → Int) (r : GenRecord) : List (String × JVal) :=
  [("id", JVal.s (toString ((hash r.endpoint).natAbs))),
   ("name", JVal.s r.name),
   ("country", JVal.s r.country),
   ("city", JVal.s r.city),
   ("endpoint", JVal.s r.endpoint),
   ("port", JVal.i (r.port : Int)),
   ("protocol", JVal.s r.protocol),
   ("config", JVal.s r.config),
   ("username", JVal.s r.username),
   ("password", JVal.s r.password),
   ("psk", JVal.s r.psk),
   ("pingLatency", JVal.i r.pingLatency),
   ("vpnSessions", JVal.i r.vpnSessions),
   ("throughput", JVal.q r.throughput)]

/-- `gen_servers.main` (lines 11–102): read the feed lines, find the header
(substring test `'#HostName' in line`), parse and filter the rows, sort by
score descending (stable), keep the top 20, and emit the output document;
`none` when the header is missing and the run returns without output. -/
def gen_main (hash : String → Int) (now : String) (lines : List String) :
    Option (List (List (String × JVal)) × String × String) :=
  match lines.findIdx? (fun l => pyContains "#HostName" l) with
  | none => none
  | some header_idx =>
    let servers := (lines.drop (header_idx + 1)).filterMap gen_parse_line
    let sorted := sortByDesc GenRecord.score servers
    some ((sorted.take 20).map (genFinalize hash), "2.0", now)

/-! ## Lemmas about the stable descending sort -/

theorem insertByDesc_perm (key : α → Int) (x : α) (l : List α) :
    List.Perm (insertByDesc key x l) (x :: l) := by
  induction l with
  | nil => simp [insertByDesc]
  | cons y ys ih =>
    simp only [insertByDesc]
    split
    · exact List.Perm.refl _
    · exact (ih.cons y).trans (List.Perm.swap x y ys)

theorem sortByDesc_perm (key : α → Int) (l : List α) :
    List.Perm (sortByDesc key l) l := by
  induction l with
  | nil => simp [sortByDesc]
  | cons x xs ih =>
    exact (insertByDesc_perm key x (sortByDesc key xs)).trans (ih.cons x)

theorem mem_sortByDesc {key : α → Int} {l : List α} {a : α} :
    a ∈ sortByDesc key l ↔ a ∈ l :=
  (sortByDesc_perm key l).mem_iff

theorem length_sortByDesc (key : α → Int) (l : List α) :
    (sortByDesc key l).length = l.length :=
  (sortByDesc_perm key l).length_eq

theorem pairwise_insertByDesc {key : α → Int} {x : α} {l : List α}
    (h : l.Pairwise (fun a b => key b ≤ key a)) :
    (insertByDesc key x l).Pairwise (fun a b => key b ≤ key a) := by
  induction l with
  | nil => simp [insertByDesc]
  | cons y ys ih =>
    rcases List.pairwise_cons.mp h with ⟨hy, hys⟩
    simp only [insertByDesc]
    split
    case isTrue hle =>
      refine List.pairwise_cons.mpr ⟨?_, h⟩
      intro z hz
      rcases List.mem_cons.mp hz with rfl | hz
      · exact hle
      · exact le_trans (hy z hz) hle
    case isFalse hgt =>
      refine List.pairwise_cons.mpr ⟨?_, ih hys⟩
      intro z hz
      rcases List.mem_cons.mp ((insertByDesc_perm key x ys).mem_iff.mp hz) with rfl | hz
      · exact le_of_lt (lt_of_not_le hgt)
      · exact hy z hz

theorem sortByDesc_pairwise (key : α → Int) (l : List α) :
    (sortByDesc key l).Pairwise (fun a b => key b ≤ key a) := by
  induction l with
  | nil => simp [sortByDesc]
  | cons x xs ih => exact pairwise_insertByDesc ih

theorem filter_insertByDesc (key : α → Int) (k : Int) (x : α) (l : List α) :
    (insertByDesc key x l).filter (fun a => key a == k) =
      if key x == k then x :: l.filter (fun a => key a == k)
      else l.filter (fun a => key a == k) := by
  induction l with
  | nil => simp [insertByDesc, List.filter_cons]
  | cons y ys ih =>
    simp only [insertByDesc]
    split
    case isTrue hle => simp [List.filter_cons]
    case isFalse hgt =>
      by_cases hx : key x = k
      · have hy : (key y == k) = false := by
          have : key y ≠ k := fun h => hgt (le_of_eq (h.trans hx.symm))
          simpa using this
        simp [List.filter_cons, hy, hx, ih]
      · have hx' : (key x == k) = false := by simpa using hx
        simp [List.filter_cons, hx', ih]

/-- Stability of the sort: within each key class, the sorted list keeps the
input order. -/
theorem sortByDesc_filter (key : α → Int) (l : List α) (k : Int) :
    (sortByDesc key l).filter (fun a => key a == k) =
      l.filter (fun a => key a == k) := by
  induction l with
  | nil => simp [sortByDesc]
  | cons x xs ih =>
    show (insertByDesc key x (sortByDesc key xs)).filter _ = _
    rw [filter_insertByDesc, List.filter_cons, ih]

/-! ## Shared helper lemmas and concrete demonstration inputs -/

/-- `test_server` returns its input record unchanged in every branch. -/
theorem test_server_fst (conn : String → Nat → Bool) (s : Server) :
    (test_server conn s).1 = s := by
  unfold test_server
  dsimp only
  split
  · rfl
  · split <;> rfl

/-- `List.find?` returns the unique element satisfying the predicate. -/
theorem find?_eq_some_of_unique {p : α → Bool} :
    ∀ {l : List α} {q : α}, q ∈ l → p q = true →
      (∀ r ∈ l, p r = true → r = q) → l.find? p = some q
  | [], _, hm, _, _ => absurd hm (List.not_mem_nil _)
  | h :: t, q, hm, hq, hu => by
    rcases List.mem_cons.mp hm with rfl | hm'
    · simp [List.find?, hq]
    · by_cases ph : p h = true
      · have hhq : h = q := hu h (List.mem_cons_self h t) ph
        subst hhq
        simp [List.find?, ph]
      · have ph' : p h = false := Bool.eq_false_iff.mpr ph
        simp only [List.find?, ph']
        exact find?_eq_some_of_unique hm' hq
          (fun r hr hpr => hu r (List.mem_cons_of_mem h hr) hpr)

/-- A candidate record used to exercise the probing pipeline concretely. -/
def demoServer : Server :=
  { hostname := "demo", ip := "203.0.113.1", score := 500000, ping := 8,
    speed := 1048576, country_long := "Japan", country_short := "JP",
    vpn_sessions := 3, config_base64 := "" }

/-- A connectivity oracle under which every probe succeeds. -/
def demoConn : String → Nat → Bool := fun _ _ => true

/-- 21 copies of the demo candidate: more survivors than the output cap. -/
def demoCands : List Server := List.replicate 21 demoServer


/-- A feed row whose blob decodes to text with no `remote` directive. -/
def noRemoteRow : String :=
  "h,9.9.9.9,200000,10,1048576,Japan,JP,5,99,99,99,2weeks,owner,msg,aGVsbG8="

/-- Feed lines (as read by `readlines`) with a header and one good row. -/
def demoFeedLines : List String :=
  ["*vpn_servers",
   "#HostName,IP,Score,Ping,Speed,CountryLong,CountryShort,NumVpnSessions,Uptime,TotalUsers,TotalTraffic,LogType,Operator,Message,OpenVPN_ConfigData_Base64",
   noRemoteRow]

/-- A feed with two equal-score candidates, used to exhibit the dependence of
the update script's output on the probe-collection order. -/
def tieCsv : String :=
  "#HostName,IP,Score,Ping,Speed,CountryLong,CountryShort,NumVpnSessions,Uptime,TotalUsers,TotalTraffic,LogType,Operator,Message,OpenVPN_ConfigData_Base64\nhostA,1.1.1.1,200000,1,1,Aland,JP,1,,,,,,,aGVsbG8=\nhostB,2.2.2.2,200000,1,1,Bland,JP,1,,,,,,,aGVsbG8="

/-- A 15-field row whose score field is non-empty and non-numeric. -/
def badNumericRow : String := "h,9.9.9.9,abc,0,0,Japan,JP,0,,,,,,,CFG"

/-- A 15-field row with several empty numeric fields and a non-empty blob. -/
def goodRow : String := "h,9.9.9.9,,5,,Japan,JP,,x,x,x,x,x,x,CFG"

/-- Modelled from the spec's wording (for comparison with the code's
`round(speed / 1024 / 1024, 2)`): the source speed in bytes/sec divided by
1048576 and rounded to 2 decimal places. -/
def specThroughput (speed : Int) : Rat := pyRound2 ((speed : Rat) / 1048576)

/-- Project an output document onto its run-stable part: drop the `id` member
of every record and the timestamp. -/
def stripVolatile (out : Option (List (List (String × JVal)) × String × String)) :
    Option (List (List (String × JVal)) × String) :=
  out.map (fun o => (o.1.map (List.filter (fun kv => !(kv.1 == "id"))), o.2.1))

/-! ## Claim theorems -/

/-- C10: probing never modifies the candidate record — `test_server` returns
the input record with every field equal to its value on entry; only the
separately returned port and reachability flag carry probe results. -/
theorem test_server_preserves_record (conn : String → Nat → Bool) (s : Server) :
    (test_server conn s).1 = s ∧
    (test_server conn s).1.hostname = s.hostname ∧
    (test_server conn s).1.ip = s.ip ∧
    (test_server conn s).1.score = s.score ∧
    (test_server conn s).1.ping = s.ping ∧
    (test_server conn s).1.speed = s.speed ∧
    (test_server conn s).1.country_long = s.country_long ∧
    (test_server conn s).1.country_short = s.country_short ∧
    (test_server conn s).1.vpn_sessions = s.vpn_sessions ∧
    (test_server conn s).1.config_base64 = s.config_base64 := by
  have h := test_server_fst conn s
  exact ⟨h, by rw [h], by rw [h], by rw [h], by rw [h], by rw [h], by rw [h],
    by rw [h], by rw [h], by rw [h]⟩

/-- C2: the prober first tries the candidate's primary port; on failure it
walks the fallback ports `[443, 1194, 992, 995]` in order, skipping the one
equal to the primary port, stopping at the first success — in particular,
when the primary port is unreachable and exactly one fallback port is
reachable, the candidate is reported reachable at that fallback port. -/
theorem test_server_fallback (conn : String → Nat → Bool) (s : Server) (q : Nat) :
    (conn s.ip (primary_port s) = true →
      test_server conn s = (s, primary_port s, true)) ∧
    (conn s.ip (primary_port s) = false →
      q ∈ [443, 1194, 992, 995] → conn s.ip q = true →
      (∀ r ∈ [443, 1194, 992, 995], conn s.ip r = true → r = q) →
      test_server conn s = (s, q, true)) := by
  constructor
  · intro h
    simp [test_server, h]
  · intro hp hm hq hu
    have hqp : q ≠ primary_port s := by
      intro h
      rw [h, hp] at hq
      cases hq
    have hfind : [443, 1194, 992, 995].find?
        (fun ap => ap != primary_port s && conn s.ip ap) = some q := by
      apply find?_eq_some_of_unique hm
      · simp [hq, hqp]
      · intro r hr hpr
        rw [Bool.and_eq_true] at hpr
        exact hu r hr hpr.2
    simp [test_server, hp, hfind]

/-- A witness for C2: with the primary port (443, from an empty decoded
configuration) unreachable and 992 the only reachable fallback, the probe
reports the candidate reachable at 992. -/
theorem test_server_fallback_demo :
    test_server (fun _ p => p == 992) demoServer = (demoServer, 992, true) :=
  (test_server_fallback (fun _ p => p == 992) demoServer 992).2
    (by decide) (by decide) (by decide) (by decide)

/-- C4: the filter stage outputs exactly the parsed records whose country
code is in the allow-list with score ≥ 100000, in score-descending order,
ties keeping their input order; the output is a function of the input set
alone. -/
theorem filterAndRank_spec (servers : List Server) (k : Int) :
    List.Perm (filterAndRank servers)
      (servers.filter (fun s => GOOGLE_ACCESSIBLE_COUNTRIES.contains s.country_short &&
        decide (100000 ≤ s.score))) ∧
    (∀ s, s ∈ filterAndRank servers →
      s.country_short ∈ GOOGLE_ACCESSIBLE_COUNTRIES ∧ 100000 ≤ s.score) ∧
    (filterAndRank servers).Pairwise (fun a b => b.score ≤ a.score) ∧
    (filterAndRank servers).filter (fun s => s.score == k) =
      (servers.filter (fun s => GOOGLE_ACCESSIBLE_COUNTRIES.contains s.country_short &&
        decide (100000 ≤ s.score))).filter (fun s => s.score == k) := by
  refine ⟨sortByDesc_perm _ _, ?_, sortByDesc_pairwise _ _, sortByDesc_filter _ _ _⟩
  intro s hs
  have hmem := mem_sortByDesc.mp hs
  have hpred := List.of_mem_filter hmem
  rw [Bool.and_eq_true] at hpred
  exact ⟨by simpa using hpred.1, of_decide_eq_true hpred.2⟩

/-- A witness for C4: on a two-candidate input the filter keeps the
allow-listed high-score record, and that record indeed satisfies both
inclusion predicates. -/
theorem filterAndRank_spec_demo :
    demoServer.country_short ∈ GOOGLE_ACCESSIBLE_COUNTRIES ∧
      100000 ≤ demoServer.score :=
  (filterAndRank_spec [demoServer, { demoServer with country_short := "CN" }] 0).2.1
    demoServer (by decide)

/-- C7: whenever more than 20 candidates survive filtering and reachability
testing, exactly 20 records go into the output, and together with the dropped
survivors they are exactly the survivors — with every kept record scoring at
least as high as every dropped one. -/
theorem final_servers_truncation (conn : String → Nat → Bool)
    (candidates : List Server)
    (h : 20 < (working_servers conn candidates).length) :
    (final_servers conn candidates).length = 20 ∧
    (∀ hash : String → Int,
      ((final_servers conn candidates).map
        (fun pr => convert_to_vpnserver hash pr.1 pr.2)).length = 20) ∧
    List.Perm
      (final_servers conn candidates ++
        (sortByDesc (fun pr => pr.1.score) (working_servers conn candidates)).drop 20)
      (working_servers conn candidates) ∧
    (∀ a ∈ final_servers conn candidates,
      ∀ b ∈ (sortByDesc (fun pr => pr.1.score) (working_servers conn candidates)).drop 20,
        b.1.score ≤ a.1.score) := by
  have hlen := length_sortByDesc (fun pr => pr.1.score) (working_servers conn candidates)
  have h20 : (final_servers conn candidates).length = 20 := by
    rw [final_servers, List.length_take, hlen]
    omega
  refine ⟨h20, fun hash => (List.length_map _ _).trans h20, ?_, ?_⟩
  · rw [final_servers, List.take_append_drop]
    exact sortByDesc_perm _ _
  · have hp := sortByDesc_pairwise (fun pr => pr.1.score) (working_servers conn candidates)
    rw [← List.take_append_drop 20
      (sortByDesc (fun pr => pr.1.score) (working_servers conn candidates))] at hp
    exact fun a ha b hb => (List.pairwise_append.mp hp).2.2 a ha b hb

/-- A witness for C7: 21 reachable candidates leave exactly 20 output
records. -/
theorem final_servers_truncation_demo :
    (final_servers demoConn demoCands).length = 20 :=
  (final_servers_truncation demoConn demoCands (by decide)).1

/-- C6: the prober produces exactly one outcome per input candidate; a
candidate all of whose connect attempts fail is reported unreachable, still
has its (counted) outcome in the probe results, and is excluded from the
final output servers list. -/
theorem probe_outcome_per_candidate (conn : String → Nat → Bool)
    (candidates : List Server) (s : Server) :
    (probe_all conn candidates).length = candidates.length ∧
    ((∀ port, conn s.ip port = false) →
      test_server conn s = (s, primary_port s, false) ∧
      (s ∈ candidates →
        (s, primary_port s, false) ∈ probe_all conn candidates ∧
        ∀ pr ∈ final_servers conn candidates, pr.1 ≠ s)) := by
  refine ⟨List.length_map _ _, fun hall => ?_⟩
  have hts : test_server conn s = (s, primary_port s, false) := by
    simp [test_server, List.find?, hall]
  refine ⟨hts, fun hmem => ⟨?_, ?_⟩⟩
  · rw [← hts]
    exact List.mem_map_of_mem _ hmem
  · intro pr hpr
    have h1 : pr ∈ working_servers conn candidates := by
      have hsub := (List.take_sublist 20
        (sortByDesc (fun pr => pr.1.score) (working_servers conn candidates))).subset
      exact mem_sortByDesc.mp (hsub hpr)
    rcases List.mem_filterMap.mp h1 with ⟨r, hr, hfr⟩
    rcases List.mem_map.mp hr with ⟨c, _, rfl⟩
    intro heq
    by_cases hb : (test_server conn c).2.2 = true
    · rw [if_pos hb] at hfr
      have hprc : pr.1 = c := by
        rw [← Option.some_inj.mp hfr]
        exact test_server_fst conn c
      have hcs : c = s := by rw [← hprc, heq]
      rw [hcs, hts] at hb
      cases hb
    · rw [if_neg hb] at hfr
      cases hfr

/-- A witness for C6: with every connect failing, the single candidate gets
exactly one (unreachable) outcome and no place in the final list. -/
theorem probe_outcome_per_candidate_demo :
    test_server (fun _ _ => false) demoServer =
      (demoServer, primary_port demoServer, false) ∧
    (demoServer, primary_port demoServer, false) ∈
      probe_all (fun _ _ => false) [demoServer] ∧
    ∀ pr ∈ final_servers (fun _ _ => false) [demoServer], pr.1 ≠ demoServer := by
  have h := (probe_outcome_per_candidate (fun _ _ => false) [demoServer] demoServer).2
    (fun _ => rfl)
  exact ⟨h.1, (h.2 (by decide)).1, (h.2 (by decide)).2⟩

/-- C8: every output record carries exactly the fourteen documented members
in order — in particular no `score` member — and its throughput is the source
speed divided by 1048576, rounded to 2 decimal places. -/
theorem convert_record_shape (hash : String → Int) (s : Server) (port : Nat)
    (hdec : (b64decode s.config_base64).isSome)
    (hspeed : s.speed.natAbs < 2 ^ 53) :
    (convert_to_vpnserver hash s port).map Prod.fst =
      ["id", "name", "country", "city", "endpoint", "port", "protocol",
       "config", "username", "password", "psk", "pingLatency", "vpnSessions",
       "throughput"] ∧
    "score" ∉ (convert_to_vpnserver hash s port).map Prod.fst ∧
    (convert_to_vpnserver hash s port).lookup "throughput" =
      some (JVal.q (specThroughput s.speed)) := by
  have hkeys : (convert_to_vpnserver hash s port).map Prod.fst =
      ["id", "name", "country", "city", "endpoint", "port", "protocol",
       "config", "username", "password", "psk", "pingLatency", "vpnSessions",
       "throughput"] := rfl
  refine ⟨hkeys, by rw [hkeys]; decide, ?_⟩
  have harg : ((s.speed : Rat) / 1024 / 1024) = ((s.speed : Rat) / 1048576) := by
    rw [div_div]
    norm_num
  have hl : (convert_to_vpnserver hash s port).lookup "throughput" =
      some (JVal.q (pyRound2 ((s.speed : Rat) / 1024 / 1024))) := rfl
  rw [hl, harg]
  rfl

/-- A witness for C8 at a concrete record (decodable blob, speed below 2^53):
the throughput member equals the spec's formula. -/
theorem convert_record_shape_demo :
    (convert_to_vpnserver (fun _ => 0) demoServer 443).lookup "throughput" =
      some (JVal.q (specThroughput demoServer.speed)) :=
  (convert_record_shape (fun _ => 0) demoServer 443 (by decide) (by decide)).2.2

/-- C9: the blob encoding `remote 1.2.3.4 443\nproto udp` parses to host
`1.2.3.4`, port 443, protocol `udp`; and in general, whenever the decoded
text has a connection directive but no `proto tcp`/`proto udp` hint, the
protocol defaults to `udp`. -/
theorem parse_config_roundtrip (blob cfg host : String) (port : Nat) :
    parse_openvpn_config (base64Encode "remote 1.2.3.4 443\nproto udp") =
      (some "1.2.3.4", some 443, some "udp") ∧
    (b64decode blob = some cfg → findRemote cfg = some (host, port) →
      findProto cfg = none →
      parse_openvpn_config blob = (some host, some port, some "udp")) := by
  refine ⟨by decide, ?_⟩
  intro h1 h2 h3
  simp [parse_openvpn_config, h1, h2, h3]

/-- A witness for C9: a blob whose decoded text has a `remote` directive and
no transport hint parses with the default protocol `udp`. -/
theorem parse_config_roundtrip_demo :
    parse_openvpn_config (base64Encode "remote 9.9.9.9 1194") =
      (some "9.9.9.9", some 1194, some "udp") :=
  (parse_config_roundtrip (base64Encode "remote 9.9.9.9 1194")
      "remote 9.9.9.9 1194" "9.9.9.9" 1194).2 (by decide) (by decide) (by decide)

/-- C3 counterexample: a candidate whose decoded configuration has no
`remote` directive gets port 443, but the decoded text carried into the
output record is the decoded configuration itself (`"hello"`), not the empty
string the claim requires. -/
theorem gen_config_not_emptied :
    b64decode "aGVsbG8=" = some "hello" ∧
    findRemote "hello" = none ∧
    (gen_parse_line noRemoteRow).map GenRecord.port = some 443 ∧
    (gen_parse_line noRemoteRow).map GenRecord.config = some "hello" ∧
    "hello" ≠ "" := by decide

/-- C3 amended: with no connection directive the port defaults to 443 while
the decoded text is carried through unchanged; both defaults — port 443 and
empty text — apply exactly when base64 decoding itself fails. -/
theorem gen_config_defaults (blob cfg : String) :
    (b64decode blob = some cfg → findRemote cfg = none →
      gen_config_port blob = (443, cfg)) ∧
    (b64decode blob = none → gen_config_port blob = (443, "")) := by
  constructor
  · intro h1 h2
    simp [gen_config_port, h1, h2]
  · intro h1
    simp [gen_config_port, h1]

/-- A witness for C3 (amended): a no-directive blob keeps its decoded text;
an unpadded blob (decode error) yields the empty text. -/
theorem gen_config_defaults_demo :
    gen_config_port "aGVsbG8=" = (443, "hello") ∧
    gen_config_port "aGVsbG8" = (443, "") :=
  ⟨(gen_config_defaults "aGVsbG8=" "hello").1 (by decide) (by decide),
   (gen_config_defaults "aGVsbG8" "").2 (by decide)⟩

/-- C5 counterexample: on identical feed input and even an identical
timestamp, two runs whose per-process string hash differs (CPython randomizes
`hash` for strings per process) produce different output documents — the
derived server identifier changes. -/
theorem gen_main_hash_sensitive :
    gen_main (fun _ => 0) "2024-01-01T00:00:00Z" demoFeedLines ≠
      gen_main (fun _ => 1) "2024-01-01T00:00:00Z" demoFeedLines := by decide

/-- `gen_servers` output depends on the hash oracle and the timestamp only
through the `id` members and `lastUpdated`. -/
theorem gen_output_hash_time_independent (h₁ h₂ : String → Int) (t₁ t₂ : String)
    (lines : List String) :
    stripVolatile (gen_main h₁ t₁ lines) = stripVolatile (gen_main h₂ t₂ lines) := by
  have hf : ∀ r : GenRecord,
      (genFinalize h₁ r).filter (fun kv => !(kv.1 == "id")) =
        (genFinalize h₂ r).filter (fun kv => !(kv.1 == "id")) := fun r => rfl
  unfold gen_main
  cases lines.findIdx? (fun l => pyContains "#HostName" l) with
  | none => rfl
  | some header_idx =>
    simp only [stripVolatile, Option.map_some', List.map_map]
    rw [show ((List.filter fun kv => !kv.1 == "id") ∘ genFinalize h₁) =
      ((List.filter fun kv => !kv.1 == "id") ∘ genFinalize h₂) from funext hf]

/-- `update_servers` output, at fixed probe connectivity and fixed collection
order, depends on the hash oracle and the timestamp only through the `id`
members and `lastUpdated`. -/
theorem update_output_hash_time_independent (h₁ h₂ : String → Int)
    (t₁ t₂ : String) (conn : String → Nat → Bool)
    (sched : List Server → List Server) (csv : String) :
    stripVolatile (update_main h₁ conn sched t₁ csv) =
      stripVolatile (update_main h₂ conn sched t₂ csv) := by
  have hf : ∀ pr : Server × Nat,
      (convert_to_vpnserver h₁ pr.1 pr.2).filter (fun kv => !(kv.1 == "id")) =
        (convert_to_vpnserver h₂ pr.1 pr.2).filter (fun kv => !(kv.1 == "id")) :=
    fun pr => rfl
  unfold update_main
  by_cases h1 : csv = ""
  · simp [h1]
  · by_cases h2 : (parse_vpngate_csv csv).isEmpty = true
    · simp [h1, h2]
    · by_cases h3 : (working_servers conn
          (sched ((filterAndRank (parse_vpngate_csv csv)).take 50))).isEmpty = true
      · simp [h1, h2, h3]
      · simp only [if_neg h1, if_neg h2, if_neg h3, stripVolatile,
          Option.map_some', List.map_map]
        rw [show ((List.filter fun kv => !kv.1 == "id") ∘
            fun pr : Server × Nat => convert_to_vpnserver h₁ pr.1 pr.2) =
          ((List.filter fun kv => !kv.1 == "id") ∘
            fun pr : Server × Nat => convert_to_vpnserver h₂ pr.1 pr.2) from funext hf]

set_option maxRecDepth 8000 in
/-- C5 amended: given identical input feed data, what may vary between runs
is the hash-derived `id` members and the wall-clock `lastUpdated` timestamp —
provided the probe stage sees the same connectivity and the same completion
order. `gen_servers.py` (no probing) therefore agrees across runs on
everything but `id` and the timestamp; `update_servers.py` does so only at
fixed connectivity and collection order — when scores tie, two legitimate
collection orders of the same probes change the serialized servers array
itself. -/
theorem main_output_stable_modulo_volatile :
    (∀ (h₁ h₂ : String → Int) (t₁ t₂ : String) (lines : List String),
      stripVolatile (gen_main h₁ t₁ lines) = stripVolatile (gen_main h₂ t₂ lines)) ∧
    (∀ (h₁ h₂ : String → Int) (t₁ t₂ : String) (conn : String → Nat → Bool)
      (sched : List Server → List Server) (csv : String),
      stripVolatile (update_main h₁ conn sched t₁ csv) =
        stripVolatile (update_main h₂ conn sched t₂ csv)) ∧
    stripVolatile (update_main (fun _ => 0) demoConn id "T" tieCsv) ≠
      stripVolatile (update_main (fun _ => 0) demoConn List.reverse "T" tieCsv) :=
  ⟨gen_output_hash_time_independent, update_output_hash_time_independent, by decide⟩

/-- C1 counterexample: a 15-field row whose score field is the non-empty,
non-numeric `abc` is rejected whole (the `ValueError` skips the row) instead
of being parsed into a candidate with score 0. -/
theorem parse_row_bad_numeric_skips :
    (pySplit badNumericRow).length = 15 ∧
    (pySplit badNumericRow).getD 2 "" = "abc" ∧
    pyInt "abc" = none ∧
    parseDataLine badNumericRow = none := by decide

/-- C1 amended: parsing is total (never raises) and a row with ≥ 15 fields is
turned into a candidate exactly when each numeric field is empty or an
integer and the configuration field is non-empty; empty numeric fields become
0, but a non-empty unparseable numeric field skips the whole row (as does an
empty configuration field), not just that field. -/
theorem parse_row_field_defaults (line : String)
    (hstar : pyStartsWith "*" line = false)
    (hblank : pyStrip line ≠ "")
    (hlen : ¬ (pySplit line).length < 15) :
    (((∀ i ∈ [2, 3, 4, 7], (pySplit line).getD i "" = "" ∨
        (pyInt ((pySplit line).getD i "")).isSome) ∧
      (pySplit line).getD 14 "" ≠ "") →
      parseDataLine line = some
        { hostname := (pySplit line).getD 0 "",
          ip := (pySplit line).getD 1 "",
          score := numField ((pySplit line).getD 2 ""),
          ping := numField ((pySplit line).getD 3 ""),
          speed := numField ((pySplit line).getD 4 ""),
          country_long := (pySplit line).getD 5 "",
          country_short := (pySplit line).getD 6 "",
          vpn_sessions := numField ((pySplit line).getD 7 ""),
          config_base64 := (pySplit line).getD 14 "" }) ∧
    ((∃ i ∈ ([2, 3, 4, 7] : List Nat), (pySplit line).getD i "" ≠ "" ∧
        pyInt ((pySplit line).getD i "") = none) →
      parseDataLine line = none) := by
  have hlen14 : (pySplit line).length > 14 := by omega
  have step : ∀ f : String, (f = "" ∨ (pyInt f).isSome) →
      (if f = "" then some 0 else pyInt f) = some (numField f) := by
    intro f hf
    by_cases he : f = ""
    · simp [he, numField]
    · rcases Option.isSome_iff_exists.mp (hf.resolve_left he) with ⟨v, hv⟩
      simp [he, numField, hv]
  constructor
  · rintro ⟨hnum, hcfg⟩
    have h2 := hnum 2 (by simp)
    have h3 := hnum 3 (by simp)
    have h4 := hnum 4 (by simp)
    have h7 := hnum 7 (by simp)
    unfold parseDataLine
    rw [if_neg (by simp [hstar]), if_neg hblank, if_neg hlen,
        step _ h2, step _ h3, step _ h4, step _ h7]
    simp only [Option.some_bind]
    rw [if_pos hlen14, if_neg hcfg]
  · rintro ⟨i, hi, hne, hnone⟩
    unfold parseDataLine
    rw [if_neg (by simp [hstar]), if_neg hblank, if_neg hlen]
    simp only [List.mem_cons, List.not_mem_nil, or_false] at hi
    have hbad : (if (pySplit line).getD i "" = "" then some (0 : Int)
        else pyInt ((pySplit line).getD i "")) = none := by
      rw [if_neg hne, hnone]
    rcases hi with rfl | rfl | rfl | rfl
    · rw [hbad]
      rfl
    · cases hb2 : (if (pySplit line).getD 2 "" = "" then some (0 : Int)
          else pyInt ((pySplit line).getD 2 "")) with
      | none => rfl
      | some v2 => rw [Option.some_bind, hbad]; rfl
    · cases hb2 : (if (pySplit line).getD 2 "" = "" then some (0 : Int)
          else pyInt ((pySplit line).getD 2 "")) with
      | none => rfl
      | some v2 =>
        cases hb3 : (if (pySplit line).getD 3 "" = "" then some (0 : Int)
            else pyInt ((pySplit line).getD 3 "")) with
        | none => rw [Option.some_bind]; rfl
        | some v3 => rw [Option.some_bind, Option.some_bind, hbad]; rfl
    · cases hb2 : (if (pySplit line).getD 2 "" = "" then some (0 : Int)
          else pyInt ((pySplit line).getD 2 "")) with
      | none => rfl
      | some v2 =>
        cases hb3 : (if (pySplit line).getD 3 "" = "" then some (0 : Int)
            else pyInt ((pySplit line).getD 3 "")) with
        | none => rw [Option.some_bind]; rfl
        | some v3 =>
          cases hb4 : (if (pySplit line).getD 4 "" = "" then some (0 : Int)
              else pyInt ((pySplit line).getD 4 "")) with
          | none => rw [Option.some_bind, Option.some_bind]; rfl
          | some v4 =>
            rw [Option.some_bind, Option.some_bind, Option.some_bind, hbad]
            rfl

/-- A witness for C1 (amended): a row with empty score, speed and session
fields parses into a candidate with those fields 0. -/
theorem parse_row_field_defaults_demo :
    parseDataLine goodRow = some
      { hostname := (pySplit goodRow).getD 0 "",
        ip := (pySplit goodRow).getD 1 "",
        score := numField ((pySplit goodRow).getD 2 ""),
        ping := numField ((pySplit goodRow).getD 3 ""),
        speed := numField ((pySplit goodRow).getD 4 ""),
        country_long := (pySplit goodRow).getD 5 "",
        country_short := (pySplit goodRow).getD 6 "",
        vpn_sessions := numField ((pySplit goodRow).getD 7 ""),
        config_base64 := (pySplit goodRow).getD 14 "" } :=
  (parse_row_field_defaults goodRow (by decide) (by decide) (by decide)).1
    ⟨by decide, by decide⟩
